import Mathlib

/-!
Verification of the MotionGAN loss-composition core against its
specification.  We shallowly embed the relevant parts of
`models/motiongan.py`, `utils/scoping.py` and `utils/tfangles.py`:
tensors become functions over `Fin`-indexed axes, Keras reductions
become `Finset` sums, learned layers become abstract function
parameters, and the float arithmetic of the losses is modelled over
`ℚ` (or `ℝ` where a square root occurs).
-/

namespace MotionGAN

/-- Keras fuzz factor `K.epsilon()` (default `1e-7`), added to the
frame-validity indicator and inside the `_edm` square root. -/
def epsK : ℚ := 1 / 10000000

/-- A batch of pose sequences: batch × joints × time × coordinate
channels, as in the `(batch_size, njoints, seq_len, 3)` inputs. -/
def Seq (B J T : ℕ) := Fin B → Fin J → Fin T → Fin 3 → ℚ

/-- A sequence mask of shape `(batch_size, njoints, seq_len, 1)`: the
trailing singleton axis is dropped. -/
def Mask (B J T : ℕ) := Fin B → Fin J → Fin T → ℚ

/-- `Multiply(name='generator/mask_mult')([x, x_mask])`: elementwise
product, the mask broadcasting over the coordinate axis. -/
def maskMult {B J T : ℕ} (x : Seq B J T) (m : Mask B J T) : Seq B J T :=
  fun b j t c => x b j t c * m b j t

/-- `zero_sum = K.sum(real_seq, axis=(1, 3))`: per-frame sum of the
real coordinates over all joints and coordinate channels. -/
def zeroSum {B J T : ℕ} (real : Seq B J T) (b : Fin B) (t : Fin T) : ℚ :=
  ∑ j : Fin J, ∑ c : Fin 3, real b j t c

/-- `zero_frames = K.cast(K.not_equal(zero_sum, 0), 'float32') + K.epsilon()`:
the frame-validity weight. -/
def zeroFrames {B J T : ℕ} (real : Seq B J T) (b : Fin B) (t : Fin T) : ℚ :=
  (if zeroSum real b t ≠ 0 then 1 else 0) + epsK

/-- The per-frame unweighted reconstruction term
`K.sum(K.mean(K.square((real*mask) - (gen*mask)), axis=-1), axis=1)`:
mean over coordinates, summed over joints. -/
def recFrameTerm {B J T : ℕ} (real gen : Seq B J T) (m : Mask B J T)
    (b : Fin B) (t : Fin T) : ℚ :=
  ∑ j : Fin J,
    (∑ c : Fin 3, (maskMult real m b j t c - maskMult gen m b j t c) ^ 2) / 3

/-- `loss_rec`: the frame terms weighted by `zero_frames` and summed
over time (per sample). -/
def lossRec {B J T : ℕ} (real gen : Seq B J T) (m : Mask B J T)
    (b : Fin B) : ℚ :=
  ∑ t : Fin T, recFrameTerm real gen m b t * zeroFrames real b t

/-- The per-frame discriminator score weighted sum
`K.sum(K.squeeze(frame_score_out, axis=-1) * zero_frames, axis=1)`
(shared shape of `frame_loss_real` / `frame_loss_fake`), for an
abstract per-frame critic score `score`. -/
def frameLoss {B J T : ℕ} (real : Seq B J T) (score : Fin B → Fin T → ℚ)
    (b : Fin B) : ℚ :=
  ∑ t : Fin T, score b t * zeroFrames real b t

/-! ### C7: multiplicative masking -/

/-- A mask is binary when each entry is `0` or `1`. -/
def BinaryMask {B J T : ℕ} (m : Mask B J T) : Prop :=
  ∀ b j t, m b j t = 0 ∨ m b j t = 1

/-- A concrete all-fives pose tensor, for witnesses. -/
def fivesPose : Seq 1 1 1 := fun _ _ _ _ => 5

/-- A concrete all-ones mask, for witnesses. -/
def onesMask : Mask 1 1 1 := fun _ _ _ => 1

/-! ### C10: `Scoping.name_scope` (utils/scoping.py) -/

/-- Outcome of the body of a `with` block: normal completion or a
raised exception. -/
inductive Outcome (A : Type) where
  | ok (a : A)
  | exn (e : String)
deriving DecidableEq

/-- The stack extension performed before `yield`: `scope` when the
stack is empty, otherwise `stack + '/' + scope`. -/
def enterScope (stack scope : String) : String :=
  if stack = "" then scope else stack ++ "/" ++ scope

/-- `Scoping.name_scope`, state-passing style.  The body receives the
yielded (extended) name stack, runs with it as the current state, and
returns its outcome together with the state it left behind; the
`finally` clause then restores `old_stack` unconditionally. -/
def nameScope {A : Type} (stack scope : String)
    (body : String → Outcome A × String) : Outcome A × String :=
  let old := stack
  let r := body (enterScope stack scope)
  (r.1, old)

/-! ### C9: `vector3d_to_quaternion` (utils/tfangles.py) -/

/-- A tensor of rank at least one, kept abstract except for its last
axis: `fibers` lists the vectors along the last dimension. -/
structure TFTensor where
  outerShape : List ℕ
  lastDim : ℕ
  fibers : List (List ℚ)

/-- `vector3d_to_quaternion`: raises `ValueError` unless the last
dimension is 3, otherwise pads with one leading zero on the last axis
(`tf.pad` with `[[1, 0]]` on the final dimension). -/
def vector3d_to_quaternion (x : TFTensor) : Except String TFTensor :=
  if x.lastDim ≠ 3 then
    Except.error "The last dimension of x must be 3."
  else
    Except.ok ⟨x.outerShape, 4, x.fibers.map (fun v => 0 :: v)⟩

/-! ### C1: the frame-validity weight -/

/-- A concrete all-zero pose tensor. -/
def zerosPose : Seq 1 1 1 := fun _ _ _ _ => 0

/-- A concrete all-one generated pose tensor. -/
def onesPose : Seq 1 1 1 := fun _ _ _ _ => 1

/-! ### C6: keys of the train/eval loss dictionaries -/

/-- The configuration flags that decide which losses `_build_loss`
registers.  `disc_has_reg` / `gen_has_reg` model
`len(model.losses) > 0` (the l2 kernel regularizers). -/
structure LossConfig where
  action_cond : Bool
  latent_cond_dim : ℕ
  coherence_loss : Bool
  displacement_loss : Bool
  shape_loss : Bool
  smoothing_loss : Bool
  use_pose_vae : Bool
  disc_has_reg : Bool
  gen_has_reg : Bool

/-- Keys of `wgan_losses`, in insertion order. -/
def wganKeyList (c : LossConfig) : List String :=
  ["loss_real", "loss_fake"] ++
    (if c.use_pose_vae then ["frame_loss_real", "frame_loss_fake"] else [])

/-- Keys of `disc_losses`, in insertion order. -/
def discKeyList (c : LossConfig) : List String :=
  ["disc_loss_wgan"] ++
    (if c.disc_has_reg then ["disc_loss_reg"] else []) ++
    (if c.use_pose_vae then ["frame_disc_loss_wgan"] else []) ++
    (if c.action_cond then ["disc_loss_action"] else []) ++
    (if 0 < c.latent_cond_dim then ["disc_loss_latent"] else [])

/-- Keys of `gen_losses`, in insertion order. -/
def genKeyList (c : LossConfig) : List String :=
  ["gen_loss_wgan"] ++
    (if c.gen_has_reg then ["gen_loss_reg"] else []) ++
    ["gen_loss_rec", "gen_loss_rec_edm"] ++
    (if c.use_pose_vae then ["frame_gen_loss_wgan"] else []) ++
    (if c.action_cond then ["gen_loss_action"] else []) ++
    (if 0 < c.latent_cond_dim then ["gen_loss_latent"] else []) ++
    (if c.coherence_loss then ["gen_loss_coh"] else []) ++
    (if c.displacement_loss then ["gen_loss_disp"] else []) ++
    (if c.shape_loss then ["gen_loss_shape"] else []) ++
    (if c.smoothing_loss then ["gen_loss_smooth"] else [])

/-- `disc_train`: `wgan_losses.keys() + disc_losses.keys()`, each
prefixed with `train/`. -/
def discTrainKeys (c : LossConfig) : List String :=
  (wganKeyList c ++ discKeyList c).map (fun k => "train/" ++ k)

/-- `disc_eval`: the same keys prefixed with `val/`. -/
def discEvalKeys (c : LossConfig) : List String :=
  (wganKeyList c ++ discKeyList c).map (fun k => "val/" ++ k)

/-- `gen_train`: `gen_losses.keys()` prefixed with `train/`. -/
def genTrainKeys (c : LossConfig) : List String :=
  (genKeyList c).map (fun k => "train/" ++ k)

/-- `gen_eval`: `gen_losses.keys()` prefixed with `val/`, then the
unprefixed `vae_z` (when the pose sub-encoder is active) and the
unprefixed `gen_outputs`. -/
def genEvalKeys (c : LossConfig) : List String :=
  (genKeyList c).map (fun k => "val/" ++ k) ++
    (if c.use_pose_vae then ["vae_z"] else []) ++ ["gen_outputs"]

/-- The flag settings of `configs/base_config.py`. -/
def baseLossConfig : LossConfig :=
  ⟨true, 0, true, false, true, true, false, true, true⟩

/-! ### The distance-matrix operator `_edm` and the losses built on it -/

/-- `K.epsilon()` as a real number, for the square-root context. -/
noncomputable def epsR : ℝ := 1 / 10000000

/-- One sample's pose sequence, real-valued: joints × time × coords. -/
def PoseSeq (J T : ℕ) := Fin J → Fin T → Fin 3 → ℝ

/-- `_edm`: pairwise Euclidean distances per frame, with `K.epsilon()`
added inside the square root. -/
noncomputable def edm {J T : ℕ} (x : PoseSeq J T) (i j : Fin J) (t : Fin T) : ℝ :=
  Real.sqrt ((∑ c : Fin 3, (x j t c - x i t c) ^ 2) + epsR)

/-- A concrete all-ones single-joint pose sequence. -/
noncomputable def onePS : PoseSeq 1 1 := fun _ _ _ => 1

/-- A concrete all-zero single-joint pose sequence. -/
noncomputable def zeroPS : PoseSeq 1 1 := fun _ _ _ => 0

/-! ### C4: the shape-loss joint-pair mask -/

/-- `np.triu(ones, k)` at entry `(i, j)`: one when `j - i ≥ k`. -/
noncomputable def triuOnes (n : ℕ) (k : ℤ) (i j : Fin n) : ℝ :=
  if k ≤ (j : ℤ) - (i : ℤ) then 1 else 0

/-- The shape-loss mask `np.triu(ones, 1) - np.triu(ones, 2)`. -/
noncomputable def shapeMask (n : ℕ) (i j : Fin n) : ℝ :=
  triuOnes n 1 i j - triuOnes n 2 i j

/-- The strict-upper-triangle mask the specification describes:
one for every unordered pair `i < j`. -/
noncomputable def specUpperMask (n : ℕ) (i j : Fin n) : ℝ :=
  if (i : ℕ) < (j : ℕ) then 1 else 0

/-- `K.mean(_edm(real_seq), axis=-1, keepdims=True)`: per-pair
time-averaged real distance. -/
noncomputable def realShape {J T : ℕ} (real : PoseSeq J T) (i j : Fin J) : ℝ :=
  (∑ t : Fin T, edm real i j t) / T

/-- One `(i, j)` entry of the shape loss: time-mean of the squared
masked difference between the static real shape and the generated
per-frame distances. -/
noncomputable def shapePairTerm {J T : ℕ} (real gen : PoseSeq J T) (i j : Fin J) : ℝ :=
  (∑ t : Fin T,
    (realShape real i j * shapeMask J i j - edm gen i j t * shapeMask J i j) ^ 2) / T

/-- `loss_shape` per sample: the pair terms summed over both joint
axes. -/
noncomputable def shapeLossPer {J T : ℕ} (real gen : PoseSeq J T) : ℝ :=
  ∑ i : Fin J, ∑ j : Fin J, shapePairTerm real gen i j

/-! ### C3: swapping real and generated in the shape loss -/

/-- Time average of a per-frame signal (`K.mean(..., axis=-1)`). -/
noncomputable def timeMean {T : ℕ} (f : Fin T → ℝ) : ℝ := (∑ t : Fin T, f t) / T

/-- Time variance of a per-frame signal. -/
noncomputable def timeVar {T : ℕ} (f : Fin T → ℝ) : ℝ :=
  (∑ t : Fin T, (f t - timeMean f) ^ 2) / T

/-- A pose sequence whose distance matrix is constant in time: two
joints one unit apart in every frame. -/
noncomputable def realSym : PoseSeq 2 2 := fun j _ c =>
  if j = 1 ∧ c = 0 then 1 else 0

/-- A pose sequence whose distance matrix varies over time: the joints
are two units apart in frame 0 and coincide in frame 1. -/
noncomputable def genAsym : PoseSeq 2 2 := fun j t c =>
  if j = 1 ∧ t = 0 ∧ c = 0 then 2 else 0

/-! ### C2: the WGAN-GP interpolates and gradient penalty -/

/-- A real-valued batch of pose sequences (the loss graph works in
float; we model it over `ℝ` because of the square root in the norm). -/
def SeqR (B J T : ℕ) := Fin B → Fin J → Fin T → Fin 3 → ℝ

/-- `interpolates = (alpha * real_seq) + ((1 - alpha) * gen_seq)`,
with one `alpha` per batch sample broadcast over the other axes. -/
def interpolates {B J T : ℕ} (alpha : Fin B → ℝ) (real fake : SeqR B J T) :
    SeqR B J T :=
  fun b j t c => alpha b * real b j t c + (1 - alpha b) * fake b j t c

/-- `norm_grad_mixed = K.sqrt(K.sum(K.square(grad_mixed), axis=(1,2,3)))`:
the per-sample Euclidean norm of a gradient tensor. -/
noncomputable def gradNorm {B J T : ℕ} (g : SeqR B J T) (b : Fin B) : ℝ :=
  Real.sqrt (∑ j : Fin J, ∑ t : Fin T, ∑ c : Fin 3, g b j t c ^ 2)

/-- `grad_penalty = K.mean(K.square(norm_grad_mixed - gamma) / gamma^2)`,
where `gradD` maps an input sequence to the critic-score gradient
evaluated at that input (`K.gradients(inter_score, [interpolates])`). -/
noncomputable def gradPenalty {B J T : ℕ} (gradD : SeqR B J T → SeqR B J T)
    (real fake : SeqR B J T) (alpha : Fin B → ℝ) (gamma : ℝ) : ℝ :=
  (∑ b : Fin B,
    (gradNorm (gradD (interpolates alpha real fake)) b - gamma) ^ 2 / gamma ^ 2) / B

/-- `disc_loss_wgan = K.mean(loss_fake - loss_real + lambda * grad_penalty)`. -/
noncomputable def discLossWgan {B : ℕ} (scoreReal scoreFake : Fin B → ℝ)
    (lambda gp : ℝ) : ℝ :=
  (∑ b : Fin B, (scoreFake b - scoreReal b + lambda * gp)) / B

/-- `gen_loss_wgan = K.mean(-loss_fake)`: the generator-side
adversarial loss takes no gradient-penalty argument at all. -/
noncomputable def genLossWgan {B : ℕ} (scoreFake : Fin B → ℝ) : ℝ :=
  (∑ b : Fin B, -scoreFake b) / B

/-- A concrete all-twos real-valued sequence. -/
noncomputable def twosSeqR : SeqR 1 1 1 := fun _ _ _ _ => 2

/-- A concrete all-threes real-valued sequence. -/
noncomputable def threesSeqR : SeqR 1 1 1 := fun _ _ _ _ => 3

/-- The constantly-one interpolation coefficient. -/
noncomputable def oneAlpha : Fin 1 → ℝ := fun _ => 1

/-! ### C5: the pose sub-encoder's skip connections -/

/-- The learned per-frame layers of the pose sub-encoder and its
mirrored decoder, kept abstract.  The gated mix
`h * (1 - tau) + pi * tau` of the attention blocks is concrete. -/
structure FAEParams where
  encIn : ℚ → ℚ
  encPiA : ℕ → ℚ → ℚ
  encPiB : ℕ → ℚ → ℚ
  encTau : ℕ → ℚ → ℚ
  decIn : ℚ → ℚ
  decPiA : ℕ → ℚ × ℚ → ℚ
  decPiB : ℕ → ℚ → ℚ
  decTau : ℕ → ℚ → ℚ

/-- Encoder hidden states: `encH p n x` is the running `h` after `n`
gated blocks (`h = (h * (1 - tau)) + (pi * tau)`). -/
def encH (p : FAEParams) : ℕ → ℚ → ℚ
  | 0, x => p.encIn x
  | n + 1, x =>
    let h := encH p n x
    h * (1 - p.encTau n h) + p.encPiB n (p.encPiA n h) * p.encTau n h

/-- `self.enc_layers[i]`: the tensor appended inside the encoder loop,
which is the `h` produced *after* block `i`'s gate. -/
def encLayers (p : FAEParams) (i : ℕ) (x : ℚ) : ℚ := encH p (i + 1) x

/-- The activation entering encoder block `i`, before its gate. -/
def preGateActivation (p : FAEParams) (i : ℕ) (x : ℚ) : ℚ := encH p i x

/-- The decoder with an explicit skip source: block `i` concatenates
`skip i` to the running hidden state before its transform branch. -/
def decHWith (p : FAEParams) (skip : ℕ → ℚ) (z : ℚ) : ℕ → ℚ
  | 0 => p.decIn z
  | n + 1 =>
    let h := decHWith p skip z n
    h * (1 - p.decTau n h) +
      p.decPiB n (p.decPiA n (h, skip n)) * p.decTau n h

/-- The decoder as written: block `i` concatenates
`self.enc_layers[2 - i]`. -/
def decH (p : FAEParams) (x z : ℚ) (n : ℕ) : ℚ :=
  decHWith p (fun i => encLayers p (2 - i) x) z n

/-- The decoder the claim describes: block `i` would concatenate the
pre-gate activation of encoder block `2 - i`. -/
def decHClaimed (p : FAEParams) (x z : ℚ) (n : ℕ) : ℚ :=
  decHWith p (fun i => preGateActivation p (2 - i) x) z n

/-- `Reshape((seq_len, njoints, 3))` followed by `Permute((2, 1, 3))`:
the decoder output laid out back as `(J, T, 3)`. -/
def permOut {J T : ℕ} (d : Fin T → Fin J → Fin 3 → ℚ) :
    Fin J → Fin T → Fin 3 → ℚ := fun j t c => d t j c

/-- Concrete layer functions that make the gate matter: every gate is
fully open and the transform branch adds one. -/
def exParams : FAEParams :=
  ⟨fun x => x, fun _ h => h + 1, fun _ h => h, fun _ _ => 1,
   fun z => z, fun _ hs => hs.2, fun _ h => h, fun _ _ => 1⟩

end MotionGAN

/-- C7: for every pose tensor and every binary mask of the generator's
input shapes, applying the multiplicative mask twice equals applying it
once, elementwise. -/
theorem c7_mask_idempotent {B J T : ℕ} (x : MotionGAN.Seq B J T)
    (m : MotionGAN.Mask B J T) (hm : MotionGAN.BinaryMask m) :
    MotionGAN.maskMult (MotionGAN.maskMult x m) m = MotionGAN.maskMult x m := by
  funext b j t c
  rcases hm b j t with h | h <;>
    simp [MotionGAN.maskMult, h, mul_assoc]

/-- Witness for C7 at a concrete binary mask and pose tensor. -/
theorem c7_mask_idempotent_witness :
    MotionGAN.BinaryMask MotionGAN.onesMask ∧
      MotionGAN.maskMult (MotionGAN.maskMult MotionGAN.fivesPose MotionGAN.onesMask)
          MotionGAN.onesMask =
        MotionGAN.maskMult MotionGAN.fivesPose MotionGAN.onesMask :=
  ⟨fun _ _ _ => Or.inr rfl,
   c7_mask_idempotent MotionGAN.fivesPose MotionGAN.onesMask
     (fun _ _ _ => Or.inr rfl)⟩

/-- C10: `name_scope` yields the prior stack extended with the new
scope (joined with '/' when the prior stack is non-empty), and on exit
the name stack equals its value before entry, whatever outcome and
state the body produced. -/
theorem c10_name_scope_restores {A : Type} (stack scope : String)
    (body : String → MotionGAN.Outcome A × String) :
    (MotionGAN.nameScope stack scope body).2 = stack ∧
      (MotionGAN.nameScope stack scope body).1 =
        (body (MotionGAN.enterScope stack scope)).1 ∧
      MotionGAN.enterScope "" scope = scope ∧
      (stack ≠ "" →
        MotionGAN.enterScope stack scope = stack ++ "/" ++ scope) := by
  refine ⟨rfl, rfl, by simp [MotionGAN.enterScope], fun h => ?_⟩
  simp [MotionGAN.enterScope, h]

/-- Witness for C10: a nested, exception-raising body over a non-empty
prior stack; the stack is restored and the yield is the joined path. -/
theorem c10_name_scope_restores_witness :
    ("foo" : String) ≠ "" ∧
      (MotionGAN.nameScope "foo" "bar"
        (fun s => (MotionGAN.Outcome.exn (A := Unit) "boom", s ++ "/corrupted"))).2 = "foo" ∧
      MotionGAN.enterScope "foo" "bar" = "foo" ++ "/" ++ "bar" := by
  have h := c10_name_scope_restores (A := Unit) "foo" "bar"
    (fun s => (MotionGAN.Outcome.exn "boom", s ++ "/corrupted"))
  exact ⟨by decide, h.1, h.2.2.2 (by decide)⟩

/-- C9: `vector3d_to_quaternion` errors iff the last dimension is not
3; on last dimension 3 it returns a tensor of last dimension 4 whose
fibers are the input fibers with a zero component prepended. -/
theorem c9_vector3d_to_quaternion_spec (x : MotionGAN.TFTensor) :
    ((∃ e, MotionGAN.vector3d_to_quaternion x = Except.error e) ↔
        x.lastDim ≠ 3) ∧
      (x.lastDim = 3 →
        MotionGAN.vector3d_to_quaternion x =
          Except.ok ⟨x.outerShape, 4, x.fibers.map (fun v => 0 :: v)⟩) := by
  constructor
  · constructor
    · rintro ⟨e, he⟩ h3
      simp [MotionGAN.vector3d_to_quaternion, h3] at he
    · intro h3
      exact ⟨"The last dimension of x must be 3.",
        by simp [MotionGAN.vector3d_to_quaternion, h3]⟩
  · intro h3
    simp [MotionGAN.vector3d_to_quaternion, h3]

/-- Witness for C9 at the concrete input `[[1,2,3]]` (last dimension
3): no error, and the output prepends a zero, giving last dimension 4. -/
theorem c9_vector3d_to_quaternion_spec_witness :
    (MotionGAN.TFTensor.mk [1] 3 [[1, 2, 3]]).lastDim = 3 ∧
      MotionGAN.vector3d_to_quaternion (MotionGAN.TFTensor.mk [1] 3 [[1, 2, 3]]) =
        Except.ok ⟨[1], 4, [[0, 1, 2, 3]]⟩ :=
  ⟨rfl, (c9_vector3d_to_quaternion_spec (MotionGAN.TFTensor.mk [1] 3 [[1, 2, 3]])).2 rfl⟩

/-- C1 counterexample: a frame whose real coordinates are all zero
receives validity weight `K.epsilon() = 1e-7`, not zero, and the
frame-weighted reconstruction loss against an all-ones generated
sequence is `1e-7`, not zero. -/
theorem c1_zero_frame_weight_counterexample :
    (∀ j c, MotionGAN.zerosPose 0 j 0 c = 0) ∧
      MotionGAN.zeroFrames MotionGAN.zerosPose 0 0 ≠ 0 ∧
      MotionGAN.lossRec MotionGAN.zerosPose MotionGAN.onesPose
        MotionGAN.onesMask 0 ≠ 0 := by
  refine ⟨fun _ _ => rfl, ?_, ?_⟩ <;>
    · norm_num [MotionGAN.zeroFrames, MotionGAN.zeroSum, MotionGAN.lossRec,
        MotionGAN.recFrameTerm, MotionGAN.maskMult, MotionGAN.epsK,
        MotionGAN.zerosPose, MotionGAN.onesPose, MotionGAN.onesMask,
        Fin.sum_univ_succ]

/-- C1 amended: a frame with all-zero real coordinates receives the
validity weight `K.epsilon()` (which is non-zero), so its summand in
each frame-weighted loss term equals the unweighted per-frame value
scaled by `K.epsilon()` rather than exactly zero. -/
theorem c1_zero_frame_weight_amended {B J T : ℕ}
    (real gen : MotionGAN.Seq B J T) (m : MotionGAN.Mask B J T)
    (score : Fin B → Fin T → ℚ) (b : Fin B) (t : Fin T)
    (h : ∀ j c, real b j t c = 0) :
    MotionGAN.zeroFrames real b t = MotionGAN.epsK ∧
      MotionGAN.epsK ≠ 0 ∧
      MotionGAN.recFrameTerm real gen m b t * MotionGAN.zeroFrames real b t =
        MotionGAN.epsK * MotionGAN.recFrameTerm real gen m b t ∧
      score b t * MotionGAN.zeroFrames real b t =
        MotionGAN.epsK * score b t := by
  have hsum : MotionGAN.zeroSum real b t = 0 := by
    simp [MotionGAN.zeroSum, h]
  have hzf : MotionGAN.zeroFrames real b t = MotionGAN.epsK := by
    simp [MotionGAN.zeroFrames, hsum]
  exact ⟨hzf, by norm_num [MotionGAN.epsK], by rw [hzf, mul_comm],
    by rw [hzf, mul_comm]⟩

/-- Witness for C1 amended at an all-zero one-frame real sequence. -/
theorem c1_zero_frame_weight_amended_witness :
    (∀ j c, MotionGAN.zerosPose 0 j 0 c = 0) ∧
      (MotionGAN.zeroFrames MotionGAN.zerosPose 0 0 = MotionGAN.epsK ∧
        MotionGAN.epsK ≠ 0 ∧
        MotionGAN.recFrameTerm MotionGAN.zerosPose MotionGAN.onesPose
            MotionGAN.onesMask 0 0 * MotionGAN.zeroFrames MotionGAN.zerosPose 0 0 =
          MotionGAN.epsK * MotionGAN.recFrameTerm MotionGAN.zerosPose
            MotionGAN.onesPose MotionGAN.onesMask 0 0 ∧
        (fun _ _ => (7 : ℚ)) 0 0 * MotionGAN.zeroFrames MotionGAN.zerosPose 0 0 =
          MotionGAN.epsK * (fun _ _ => (7 : ℚ)) 0 0) :=
  ⟨fun _ _ => rfl,
   c1_zero_frame_weight_amended MotionGAN.zerosPose MotionGAN.onesPose
     MotionGAN.onesMask (fun _ _ => (7 : ℚ)) 0 0 (fun _ _ => rfl)⟩

/-- C6 counterexample: under the base configuration `gen_train`'s key
list does not contain `train/loss_real` or `train/loss_fake`, and
`gen_eval` carries the unprefixed key `gen_outputs`, so the four entry
points do not all return the union of `loss_real`, `loss_fake` and the
enabled loss names under a uniform prefix. -/
theorem c6_entry_point_keys_counterexample :
    "train/loss_real" ∉ MotionGAN.genTrainKeys MotionGAN.baseLossConfig ∧
      "train/loss_fake" ∉ MotionGAN.genTrainKeys MotionGAN.baseLossConfig ∧
      "gen_outputs" ∈ MotionGAN.genEvalKeys MotionGAN.baseLossConfig ∧
      "val/gen_outputs" ∉ MotionGAN.genEvalKeys MotionGAN.baseLossConfig := by
  decide

/-- Membership in a conditionally-present key block. -/
theorem mem_ite_nil {α : Type} (P : Prop) [Decidable P] (l : List α) (a : α) :
    (a ∈ if P then l else []) ↔ P ∧ a ∈ l := by
  split <;> simp_all

/-- Witness elimination for a guarded singleton key block. -/
theorem exists_flag_eq {α : Type} (Q : Prop) (v : α) (R : α → Prop) :
    (∃ a, (Q ∧ a = v) ∧ R a) ↔ Q ∧ R v := by
  constructor
  · rintro ⟨a, ⟨hq, rfl⟩, hr⟩
    exact ⟨hq, hr⟩
  · rintro ⟨hq, hr⟩
    exact ⟨v, ⟨hq, rfl⟩, hr⟩

/-- C6 amended: `disc_train`/`disc_eval` return `loss_real`,
`loss_fake` (plus the frame-level pair when the pose sub-encoder is
active) followed by the enabled discriminator loss names, under the
`train/` resp. `val/` prefix; `gen_train` returns only the enabled
generator loss names under `train/`; `gen_eval` returns the enabled
generator loss names under `val/` followed by the unprefixed `vae_z`
(when the pose sub-encoder is active) and ending in the unprefixed
`gen_outputs`. -/
theorem c6_entry_point_keys_amended (c : MotionGAN.LossConfig) :
    (∃ pre, MotionGAN.genEvalKeys c = pre ++ ["gen_outputs"]) ∧
      ("train/loss_real" ∈ MotionGAN.discTrainKeys c ∧
        "train/loss_fake" ∈ MotionGAN.discTrainKeys c ∧
        "val/loss_real" ∈ MotionGAN.discEvalKeys c ∧
        "val/loss_fake" ∈ MotionGAN.discEvalKeys c ∧
        "train/loss_real" ∉ MotionGAN.genTrainKeys c ∧
        "train/loss_fake" ∉ MotionGAN.genTrainKeys c ∧
        ("vae_z" ∈ MotionGAN.genEvalKeys c ↔ c.use_pose_vae = true) ∧
        ("train/frame_disc_loss_wgan" ∈ MotionGAN.discTrainKeys c ↔
          c.use_pose_vae = true) ∧
        ("train/disc_loss_action" ∈ MotionGAN.discTrainKeys c ↔
          c.action_cond = true) ∧
        ("train/gen_loss_shape" ∈ MotionGAN.genTrainKeys c ↔
          c.shape_loss = true) ∧
        ("val/gen_loss_smooth" ∈ MotionGAN.genEvalKeys c ↔
          c.smoothing_loss = true)) := by
  refine ⟨⟨(MotionGAN.genKeyList c).map (fun k => "val/" ++ k) ++
    (if c.use_pose_vae then ["vae_z"] else []), rfl⟩, ?_⟩
  refine ⟨?_, ?_, ?_, ?_, ?_, ?_, ?_, ?_, ?_, ?_, ?_⟩ <;>
    simp [MotionGAN.discTrainKeys, MotionGAN.discEvalKeys,
      MotionGAN.genTrainKeys, MotionGAN.genEvalKeys,
      MotionGAN.wganKeyList, MotionGAN.discKeyList, MotionGAN.genKeyList,
      mem_ite_nil, exists_flag_eq, and_or_left, or_and_right, exists_or]

/-- Every diagonal entry of `_edm` is exactly the square root of the
added epsilon. -/
theorem edm_diag {J T : ℕ} (x : MotionGAN.PoseSeq J T) (i : Fin J)
    (t : Fin T) : MotionGAN.edm x i i t = Real.sqrt MotionGAN.epsR := by
  simp [MotionGAN.edm]

/-- C8 counterexample: at the all-zero single-joint sequence the
diagonal entry equals `sqrt(K.epsilon()) ≈ 3.16e-4`, which is larger
than the epsilon `1e-7` itself, so the diagonal is not zero to within
that epsilon. -/
theorem c8_edm_diag_counterexample :
    MotionGAN.edm MotionGAN.zeroPS 0 0 0 = Real.sqrt MotionGAN.epsR ∧
      ¬ MotionGAN.edm MotionGAN.zeroPS 0 0 0 ≤ MotionGAN.epsR := by
  have hd : MotionGAN.edm MotionGAN.zeroPS 0 0 0 = Real.sqrt MotionGAN.epsR := by
    simp [MotionGAN.edm]
  refine ⟨hd, ?_⟩
  rw [hd, not_le]
  exact Real.lt_sqrt_of_sq_lt (by norm_num [MotionGAN.epsR])

/-- C8 amended: for every input and frame the distance matrix is
symmetric and non-negative, and each diagonal entry equals
`sqrt(K.epsilon())` exactly — zero to within the square root of the
epsilon added inside the square root (its square is exactly that
epsilon), not to within the epsilon itself. -/
theorem c8_edm_symmetric_nonneg_diag {J T : ℕ} (x : MotionGAN.PoseSeq J T)
    (i j : Fin J) (t : Fin T) :
    MotionGAN.edm x i j t = MotionGAN.edm x j i t ∧
      0 ≤ MotionGAN.edm x i j t ∧
      MotionGAN.edm x i i t = Real.sqrt MotionGAN.epsR ∧
      Real.sqrt MotionGAN.epsR ^ 2 = MotionGAN.epsR := by
  refine ⟨?_, Real.sqrt_nonneg _, edm_diag x i t, ?_⟩
  · unfold MotionGAN.edm
    congr 1
    refine congrArg (· + MotionGAN.epsR) ?_
    exact Finset.sum_congr rfl fun c _ => by ring
  · exact Real.sq_sqrt (by norm_num [MotionGAN.epsR])

/-- C4 counterexample: with three joints, the pair `(0, 2)` satisfies
`i < j` yet its mask entry is zero, differing from the strict upper
triangle the claim describes; the pair is dropped from the
comparison rather than counted once. -/
theorem c4_shape_mask_counterexample :
    MotionGAN.shapeMask 3 0 2 = 0 ∧ MotionGAN.specUpperMask 3 0 2 = 1 ∧
      MotionGAN.shapeMask 3 0 2 ≠ MotionGAN.specUpperMask 3 0 2 := by
  norm_num [MotionGAN.shapeMask, MotionGAN.specUpperMask, MotionGAN.triuOnes]

namespace MotionGAN

/-- The shape-loss mask picks out exactly the consecutive pairs
`j = i + 1`. -/
theorem shapeMask_eq {n : ℕ} (i j : Fin n) :
    shapeMask n i j = if (j : ℕ) = (i : ℕ) + 1 then 1 else 0 := by
  unfold shapeMask triuOnes
  rcases Nat.lt_trichotomy (j : ℕ) ((i : ℕ) + 1) with h | h | h
  · rw [if_neg (by omega), if_neg (by omega), if_neg (by omega)]
    norm_num
  · rw [if_pos (by omega), if_neg (by omega), if_pos h]
    norm_num
  · rw [if_pos (by omega), if_pos (by omega), if_neg (by omega)]
    norm_num

/-- Non-consecutive pairs contribute zero to the shape loss. -/
theorem shapePairTerm_zero {J T : ℕ} (real gen : PoseSeq J T) (i j : Fin J)
    (h : (j : ℕ) ≠ (i : ℕ) + 1) : shapePairTerm real gen i j = 0 := by
  unfold shapePairTerm
  rw [shapeMask_eq, if_neg h]
  simp

/-- Consecutive pairs contribute the unmasked squared difference. -/
theorem shapePairTerm_adj {J T : ℕ} (real gen : PoseSeq J T) (i j : Fin J)
    (h : (j : ℕ) = (i : ℕ) + 1) :
    shapePairTerm real gen i j =
      (∑ t : Fin T, (realShape real i j - edm gen i j t) ^ 2) / T := by
  unfold shapePairTerm
  rw [shapeMask_eq, if_pos h]
  simp

end MotionGAN

/-- C4 amended: the mask equals one exactly on consecutive joint pairs
`j = i + 1` and zero elsewhere; hence every consecutive pair enters the
masked comparison exactly once (its pair term is the unmasked squared
difference) while diagonal entries and all non-adjacent pairs
contribute exactly zero. -/
theorem c4_shape_mask_amended {J T : ℕ} (real gen : MotionGAN.PoseSeq J T)
    (i j : Fin J) :
    (MotionGAN.shapeMask J i j = if (j : ℕ) = (i : ℕ) + 1 then 1 else 0) ∧
      MotionGAN.shapeMask J i i = 0 ∧
      ((j : ℕ) = (i : ℕ) + 1 →
        MotionGAN.shapePairTerm real gen i j =
          (∑ t : Fin T,
            (MotionGAN.realShape real i j - MotionGAN.edm gen i j t) ^ 2) / T) ∧
      ((j : ℕ) ≠ (i : ℕ) + 1 → MotionGAN.shapePairTerm real gen i j = 0) := by
  refine ⟨MotionGAN.shapeMask_eq i j, ?_, MotionGAN.shapePairTerm_adj real gen i j,
    MotionGAN.shapePairTerm_zero real gen i j⟩
  rw [MotionGAN.shapeMask_eq]
  simp

/-- Witness for C4 amended: with three joints, pair `(0, 1)` is kept
with mask one and pair `(0, 2)` contributes zero. -/
theorem c4_shape_mask_amended_witness :
    ((2 : Fin 3) : ℕ) ≠ ((0 : Fin 3) : ℕ) + 1 ∧
      MotionGAN.shapePairTerm (J := 3) (T := 1) (fun _ _ _ => 1) (fun _ _ _ => 0)
        0 2 = 0 := by
  have h := c4_shape_mask_amended (J := 3) (T := 1)
    (fun _ _ _ => 1) (fun _ _ _ => 0) 0 2
  exact ⟨by norm_num, h.2.2.2 (by norm_num)⟩

namespace MotionGAN

/-- Bias–variance split of a mean squared deviation from a constant. -/
theorem mean_sq_dev {T : ℕ} (hT : 0 < T) (c : ℝ) (f : Fin T → ℝ) :
    (∑ t : Fin T, (c - f t) ^ 2) / T = (c - timeMean f) ^ 2 + timeVar f := by
  have hT' : (T : ℝ) ≠ 0 := Nat.cast_ne_zero.mpr hT.ne'
  have e1 : ∀ t : Fin T, (c - f t) ^ 2 = c ^ 2 - 2 * c * f t + f t ^ 2 :=
    fun t => by ring
  have e2 : ∀ t : Fin T, (f t - timeMean f) ^ 2 =
      f t ^ 2 - 2 * timeMean f * f t + timeMean f ^ 2 := fun t => by ring
  unfold timeVar
  simp only [e1, e2, Finset.sum_add_distrib, Finset.sum_sub_distrib,
    ← Finset.mul_sum, Finset.sum_const, Finset.card_univ, Fintype.card_fin,
    nsmul_eq_mul]
  unfold timeMean
  field_simp
  ring

/-- Swapping the arguments of one shape-loss pair term changes it by
the masked difference of the two time variances. -/
theorem shapePairTerm_swap {J T : ℕ} (hT : 0 < T) (real gen : PoseSeq J T)
    (i j : Fin J) :
    shapePairTerm real gen i j - shapePairTerm gen real i j =
      shapeMask J i j ^ 2 * (timeVar (edm gen i j) - timeVar (edm real i j)) := by
  have e1 : ∀ t : Fin T,
      (realShape real i j * shapeMask J i j - edm gen i j t * shapeMask J i j) ^ 2 =
        shapeMask J i j ^ 2 * (realShape real i j - edm gen i j t) ^ 2 :=
    fun t => by ring
  have e2 : ∀ t : Fin T,
      (realShape gen i j * shapeMask J i j - edm real i j t * shapeMask J i j) ^ 2 =
        shapeMask J i j ^ 2 * (realShape gen i j - edm real i j t) ^ 2 :=
    fun t => by ring
  unfold shapePairTerm
  simp only [e1, e2, ← Finset.mul_sum]
  rw [mul_div_assoc, mul_div_assoc,
    mean_sq_dev hT (realShape real i j) (edm gen i j),
    mean_sq_dev hT (realShape gen i j) (edm real i j)]
  have hr : realShape real i j = timeMean (edm real i j) := rfl
  have hg : realShape gen i j = timeMean (edm gen i j) := rfl
  rw [hr, hg]
  ring

/-- Summed form of the swap identity for the whole shape loss. -/
theorem shapeLossPer_swap {J T : ℕ} (hT : 0 < T) (real gen : PoseSeq J T) :
    shapeLossPer real gen - shapeLossPer gen real =
      ∑ i : Fin J, ∑ j : Fin J,
        shapeMask J i j ^ 2 *
          (timeVar (edm gen i j) - timeVar (edm real i j)) := by
  unfold shapeLossPer
  rw [← Finset.sum_sub_distrib]
  refine Finset.sum_congr rfl fun i _ => ?_
  rw [← Finset.sum_sub_distrib]
  exact Finset.sum_congr rfl fun j _ => shapePairTerm_swap hT real gen i j

end MotionGAN

/-- C3 amended: swapping which sequence is called real and which
generated changes the unweighted shape loss by exactly the
mask-weighted difference of the per-pair time variances of the two
distance matrices; the value is unchanged precisely when those masked
variances coincide (for example when both distance matrices are
constant in time), but not in general. -/
theorem c3_shape_loss_swap_amended {J T : ℕ} (hT : 0 < T)
    (real gen : MotionGAN.PoseSeq J T) :
    MotionGAN.shapeLossPer real gen - MotionGAN.shapeLossPer gen real =
      ∑ i : Fin J, ∑ j : Fin J,
        MotionGAN.shapeMask J i j ^ 2 *
          (MotionGAN.timeVar (MotionGAN.edm gen i j) -
            MotionGAN.timeVar (MotionGAN.edm real i j)) :=
  MotionGAN.shapeLossPer_swap hT real gen

/-- Witness for C3 amended at one joint, one frame. -/
theorem c3_shape_loss_swap_amended_witness :
    0 < 1 ∧
      MotionGAN.shapeLossPer MotionGAN.onePS MotionGAN.zeroPS -
          MotionGAN.shapeLossPer MotionGAN.zeroPS MotionGAN.onePS =
        ∑ i : Fin 1, ∑ j : Fin 1,
          MotionGAN.shapeMask 1 i j ^ 2 *
            (MotionGAN.timeVar (MotionGAN.edm MotionGAN.zeroPS i j) -
              MotionGAN.timeVar (MotionGAN.edm MotionGAN.onePS i j)) :=
  ⟨Nat.one_pos,
   c3_shape_loss_swap_amended Nat.one_pos MotionGAN.onePS MotionGAN.zeroPS⟩

namespace MotionGAN

/-- Time variance of a two-frame signal. -/
theorem timeVar_two (f : Fin 2 → ℝ) : timeVar f = (f 0 - f 1) ^ 2 / 4 := by
  unfold timeVar timeMean
  rw [Fin.sum_univ_two, Fin.sum_univ_two]
  norm_num
  ring

/-- The appearing inter-joint distances. -/
theorem edm_realSym (t : Fin 2) : edm realSym 0 1 t = Real.sqrt (1 + epsR) := by
  simp [edm, realSym, Fin.sum_univ_three]

/-- Frame-0 distance of the varying sequence. -/
theorem edm_genAsym_zero : edm genAsym 0 1 0 = Real.sqrt (4 + epsR) := by
  norm_num [edm, genAsym, Fin.sum_univ_three]

/-- Frame-1 distance of the varying sequence. -/
theorem edm_genAsym_one : edm genAsym 0 1 1 = Real.sqrt epsR := by
  simp [edm, genAsym, Fin.sum_univ_three]

end MotionGAN

/-- C3 counterexample: for the concrete pair `realSym` (time-constant
distances) and `genAsym` (time-varying distances) the shape loss is
not symmetric under exchanging the real and generated roles. -/
theorem c3_shape_loss_swap_counterexample :
    MotionGAN.shapeLossPer MotionGAN.realSym MotionGAN.genAsym ≠
      MotionGAN.shapeLossPer MotionGAN.genAsym MotionGAN.realSym := by
  intro heq
  have hswap := MotionGAN.shapeLossPer_swap (T := 2) (by norm_num)
    MotionGAN.realSym MotionGAN.genAsym
  rw [heq, sub_self] at hswap
  have hm01 : MotionGAN.shapeMask 2 0 1 = 1 := by
    rw [MotionGAN.shapeMask_eq]
    norm_num
  have hm00 : MotionGAN.shapeMask 2 0 0 = 0 := by
    rw [MotionGAN.shapeMask_eq]
    norm_num
  have hm10 : MotionGAN.shapeMask 2 1 0 = 0 := by
    rw [MotionGAN.shapeMask_eq]
    norm_num
  have hm11 : MotionGAN.shapeMask 2 1 1 = 0 := by
    rw [MotionGAN.shapeMask_eq]
    norm_num
  rw [Fin.sum_univ_two, Fin.sum_univ_two, Fin.sum_univ_two,
    hm00, hm01, hm10, hm11] at hswap
  have hvr : MotionGAN.timeVar (MotionGAN.edm MotionGAN.realSym 0 1) = 0 := by
    rw [MotionGAN.timeVar_two, MotionGAN.edm_realSym 0, MotionGAN.edm_realSym 1]
    ring
  have hvg : MotionGAN.timeVar (MotionGAN.edm MotionGAN.genAsym 0 1) =
      (Real.sqrt (4 + MotionGAN.epsR) - Real.sqrt MotionGAN.epsR) ^ 2 / 4 := by
    rw [MotionGAN.timeVar_two, MotionGAN.edm_genAsym_zero, MotionGAN.edm_genAsym_one]
  rw [hvr, hvg] at hswap
  have hlt : Real.sqrt MotionGAN.epsR < Real.sqrt (4 + MotionGAN.epsR) :=
    Real.sqrt_lt_sqrt (by norm_num [MotionGAN.epsR]) (by norm_num)
  have hpos : 0 < (Real.sqrt (4 + MotionGAN.epsR) - Real.sqrt MotionGAN.epsR) ^ 2 := by
    have := sub_pos.mpr hlt
    positivity
  nlinarith [hswap, hpos]

/-- C2: when every per-sample `alpha` is 1 the interpolated tensor is
the real sequence and the penalty is the mean squared deviation from
1.0 of the critic gradient norm at the real sequence alone; when every
`alpha` is 0 it is the fake sequence and the penalty depends on the
fake sequence alone; the penalty enters the discriminator loss scaled
by lambda while the generator-side adversarial loss is the mean of
`-loss_fake` with no penalty term. -/
theorem c2_gradient_penalty_endpoints {B J T : ℕ} (hB : 0 < B)
    (gradD : MotionGAN.SeqR B J T → MotionGAN.SeqR B J T)
    (real fake : MotionGAN.SeqR B J T) (alpha : Fin B → ℝ)
    (scoreReal scoreFake : Fin B → ℝ) (lambda gp : ℝ) :
    ((∀ b, alpha b = 1) →
      MotionGAN.interpolates alpha real fake = real ∧
        MotionGAN.gradPenalty gradD real fake alpha 1 =
          (∑ b : Fin B, (MotionGAN.gradNorm (gradD real) b - 1) ^ 2) / B) ∧
      ((∀ b, alpha b = 0) →
        MotionGAN.interpolates alpha real fake = fake ∧
          MotionGAN.gradPenalty gradD real fake alpha 1 =
            (∑ b : Fin B, (MotionGAN.gradNorm (gradD fake) b - 1) ^ 2) / B) ∧
      MotionGAN.discLossWgan scoreReal scoreFake lambda gp =
        (∑ b : Fin B, (scoreFake b - scoreReal b)) / B + lambda * gp ∧
      MotionGAN.genLossWgan scoreFake = -((∑ b : Fin B, scoreFake b) / B) := by
  have hBR : (B : ℝ) ≠ 0 := Nat.cast_ne_zero.mpr hB.ne'
  refine ⟨fun h1 => ?_, fun h0 => ?_, ?_, ?_⟩
  · have hi : MotionGAN.interpolates alpha real fake = real := by
      funext b j t c
      simp [MotionGAN.interpolates, h1 b]
    refine ⟨hi, ?_⟩
    unfold MotionGAN.gradPenalty
    rw [hi]
    simp
  · have hi : MotionGAN.interpolates alpha real fake = fake := by
      funext b j t c
      simp [MotionGAN.interpolates, h0 b]
    refine ⟨hi, ?_⟩
    unfold MotionGAN.gradPenalty
    rw [hi]
    simp
  · unfold MotionGAN.discLossWgan
    rw [Finset.sum_add_distrib, Finset.sum_const, Finset.card_univ,
      Fintype.card_fin, nsmul_eq_mul, add_div, mul_comm (B : ℝ) (lambda * gp),
      mul_div_assoc, div_self hBR, mul_one]
  · unfold MotionGAN.genLossWgan
    rw [Finset.sum_neg_distrib, neg_div]

/-- Witness for C2 with a one-sample batch, `alpha = 1`, and the
identity map as the critic gradient. -/
theorem c2_gradient_penalty_endpoints_witness :
    0 < 1 ∧
      (MotionGAN.interpolates MotionGAN.oneAlpha MotionGAN.twosSeqR
          MotionGAN.threesSeqR = MotionGAN.twosSeqR ∧
        MotionGAN.gradPenalty (fun s => s) MotionGAN.twosSeqR
            MotionGAN.threesSeqR MotionGAN.oneAlpha 1 =
          (∑ b : Fin 1,
            (MotionGAN.gradNorm ((fun s : MotionGAN.SeqR 1 1 1 => s)
              MotionGAN.twosSeqR) b - 1) ^ 2) / ((1 : ℕ) : ℝ)) :=
  ⟨Nat.one_pos,
   (c2_gradient_penalty_endpoints Nat.one_pos (fun s => s)
      MotionGAN.twosSeqR MotionGAN.threesSeqR MotionGAN.oneAlpha
      (fun _ => 0) (fun _ => 0) 10 0).1 (fun _ => rfl)⟩

/-- C5 counterexample: for concrete layer functions, the skip tensor
the first decoder block consumes is the gated output of encoder block
2 — not its pre-gate activation, which differs — so the decoder built
from pre-gate skips computes a different value. -/
theorem c5_skip_connection_counterexample :
    MotionGAN.encLayers MotionGAN.exParams 2 0 ≠
        MotionGAN.preGateActivation MotionGAN.exParams 2 0 ∧
      MotionGAN.decH MotionGAN.exParams 0 0 1 =
        MotionGAN.encLayers MotionGAN.exParams 2 0 ∧
      MotionGAN.decH MotionGAN.exParams 0 0 1 ≠
        MotionGAN.decHClaimed MotionGAN.exParams 0 0 1 := by
  refine ⟨?_, ?_, ?_⟩ <;>
    norm_num [MotionGAN.decH, MotionGAN.decHClaimed, MotionGAN.decHWith,
      MotionGAN.encLayers, MotionGAN.preGateActivation, MotionGAN.encH,
      MotionGAN.exParams]

/-- C5 amended: decoder block `i` concatenates, as its skip input, the
*post-gate* (gated) output of the encoder block at the mirrored depth
`2 - i`; that tensor is the gate mix of block `2 - i`'s pre-gate
activation, and the decoder output is reshaped back to `(J, T, 3)` by
transposing the time and joint axes. -/
theorem c5_skip_connection_amended (p : MotionGAN.FAEParams) (x z : ℚ)
    (i : ℕ) {J T : ℕ} (d : Fin T → Fin J → Fin 3 → ℚ) (j : Fin J)
    (t : Fin T) (c : Fin 3) :
    MotionGAN.decH p x z (i + 1) =
        (MotionGAN.decH p x z i * (1 - p.decTau i (MotionGAN.decH p x z i)) +
          p.decPiB i (p.decPiA i (MotionGAN.decH p x z i,
            MotionGAN.encLayers p (2 - i) x)) *
            p.decTau i (MotionGAN.decH p x z i)) ∧
      MotionGAN.encLayers p i x =
        MotionGAN.preGateActivation p i x *
            (1 - p.encTau i (MotionGAN.preGateActivation p i x)) +
          p.encPiB i (p.encPiA i (MotionGAN.preGateActivation p i x)) *
            p.encTau i (MotionGAN.preGateActivation p i x) ∧
      MotionGAN.permOut d j t c = d t j c := by
  exact ⟨rfl, rfl, rfl⟩
